import Mathlib

/-!
Verification of the finance-tracker repository's numeric core:
date handling, the CAGR engine (`calculateCAGR`, `getCAGR`), the
projection engine (`calculateLumpsumValue`, `calculateSIPValue`,
`calculateTaxAmount`), the corpus-withdrawal simulator
(`calculateCorpusProjection`) and the client cache
(`getFromCache` / `setInCache` / `clearCache`).

Numbers are modelled exactly: JavaScript `number` values become `ℚ`
where the code only adds, multiplies, divides and compares, and `ℝ`
where `Math.pow` with a fractional exponent appears.  Dates parsed
from `DD-MM-YYYY` strings become explicit day/month/year records with
an epoch-millisecond conversion.
-/

namespace FinanceTracker

/-- A calendar date as parsed from a `"DD-MM-YYYY"` string by
`new Date(item.date.split("-").reverse().join("-"))`. -/
structure DateRec where
  day : ℤ
  month : ℤ
  year : ℤ
deriving DecidableEq

/-- Days since the Unix epoch (1970-01-01) of a civil date, the count
underlying JavaScript `Date.getTime`.  Out-of-range day/month values
normalise by arithmetic, matching JavaScript date normalisation. -/
def daysFromCivil (y m d : ℤ) : ℤ :=
  let yAdj := if m ≤ 2 then y - 1 else y
  let era := (if 0 ≤ yAdj then yAdj else yAdj - 399) / 400
  let yoe := yAdj - era * 400
  let mp := (m + 9) % 12
  let doy := (153 * mp + 2) / 5 + d - 1
  let doe := yoe * 365 + yoe / 4 - yoe / 100 + doy
  era * 146097 + doe - 719468

/-- Epoch milliseconds of a civil date (UTC midnight), as produced by
`new Date("YYYY-MM-DD").getTime()`. -/
def msOfCivil (y m d : ℤ) : ℤ :=
  86400000 * daysFromCivil y m d

/-- `date.getTime()` for a parsed `DD-MM-YYYY` date. -/
def DateRec.toTime (dt : DateRec) : ℤ :=
  msOfCivil dt.year dt.month dt.day

/-- The timestamp of `target` in
`const target = new Date(endDate); target.setFullYear(endDate.getFullYear() - years);`:
calendar subtraction of whole years, normalising Feb-29 overflow the
way JavaScript does. -/
def DateRec.subYearsTime (dt : DateRec) (years : ℤ) : ℤ :=
  msOfCivil (dt.year - years) dt.month dt.day

/-- One sample of the NAV history: `interface NAVData { date: string; nav: string }`,
held here in parsed form (`date` parsed from `DD-MM-YYYY`, `nav` via `parseFloat`). -/
structure NAVData where
  date : DateRec
  nav : ℚ
deriving DecidableEq

/-- Default element used for in-bounds list indexing. -/
def dummyNAV : NAVData := ⟨⟨1, 1, 1970⟩, 0⟩

/-- `365.25 * 24 * 60 * 60 * 1000`, the fixed milliseconds-per-year
divisor used throughout `getCAGR`. -/
def msPerYear : ℚ := (36525 : ℚ) / 100 * (24 * 60 * 60 * 1000)

/-- `[...data].sort((a, b) => dateA.getTime() - dateB.getTime())`:
stable sort of the NAV series ascending by parsed date. -/
def sortByDate (data : List NAVData) : List NAVData :=
  List.insertionSort (fun a b => a.date.toTime ≤ b.date.toTime) data

/-- The `while (left <= right)` binary-search loop of `getCAGR`,
tracking `closestIndex` (initially `-1`) and `minDiff` (initially
`Infinity`, modelled as `none`).  `fuel` bounds the iteration count;
`closestIndex` below supplies `length + 1`, which exceeds the range
size and hence is never exhausted. -/
def closestLoop (sorted : List NAVData) (target : ℤ) :
    ℕ → ℤ → ℤ → ℤ → Option ℤ → ℤ
  | 0, _, _, ci, _ => ci
  | fuel + 1, left, right, ci, minDiff =>
    if left ≤ right then
      let mid := (left + right) / 2
      let midTime := (sorted.getD mid.toNat dummyNAV).date.toTime
      let diff := |midTime - target|
      let improves : Bool :=
        match minDiff with
        | none => true
        | some m => decide (diff < m)
      let ci' := if improves then mid else ci
      let minDiff' := if improves then some diff else minDiff
      if midTime = target then ci'
      else if midTime < target then
        closestLoop sorted target fuel (mid + 1) right ci' minDiff'
      else
        closestLoop sorted target fuel left (mid - 1) ci' minDiff'
    else ci

/-- The binary search of `getCAGR`: index of the sample whose date is
closest to `target` under the source's early-exit/last-seen tie rules,
or `-1` when the series is empty. -/
def closestIndex (sorted : List NAVData) (target : ℤ) : ℤ :=
  closestLoop sorted target (sorted.length + 1) 0 ((sorted.length : ℤ) - 1) (-1) none

/-- `calculateCAGR(startNAV, endNAV, years)` from src/app/page.tsx
lines 241-249 (identical in src/unnamed/part_000 and, as
`calculateCAGR(initialAmount, finalAmount, totalYears)`, in
src/app/cagr-calculator/page.tsx): returns `0` on any non-positive
input, else `((endNAV/startNAV)^(1/years) - 1) * 100`. -/
noncomputable def calculateCAGR (startNAV endNAV years : ℝ) : ℝ :=
  if startNAV ≤ 0 ∨ endNAV ≤ 0 ∨ years ≤ 0 then 0
  else ((endNAV / startNAV) ^ ((1 : ℝ) / years) - 1) * 100

/-- The CAGR table `{[key in Exclude<TimePeriod, "6M">]?: number}`:
one optional percentage per lookback period. -/
structure CagrTable where
  oneY : Option ℝ
  threeY : Option ℝ
  fiveY : Option ℝ
  sevenY : Option ℝ
  tenY : Option ℝ
  fifteenY : Option ℝ
  maxPeriod : Option ℝ

/-- The empty table `{}`. -/
def emptyTable : CagrTable :=
  ⟨none, none, none, none, none, none, none⟩

/-- Look up the entry for a fixed lookback period of `P` years
(`P ∈ {1,3,5,7,10,15}`; any other `P` has no key). -/
def CagrTable.period (t : CagrTable) (P : ℤ) : Option ℝ :=
  if P = 1 then t.oneY
  else if P = 3 then t.threeY
  else if P = 5 then t.fiveY
  else if P = 7 then t.sevenY
  else if P = 10 then t.tenY
  else if P = 15 then t.fifteenY
  else none

/-- `sortedData[sortedData.length - 1]`, the most recent sample. -/
def latestEntry (data : List NAVData) : NAVData :=
  (sortByDate data).getD ((sortByDate data).length - 1) dummyNAV

/-- `sortedData[0]`, the oldest sample. -/
def oldestEntry (data : List NAVData) : NAVData :=
  (sortByDate data).getD 0 dummyNAV

/-- `maxYears = (endDate.getTime() - oldestDate.getTime()) / (365.25*24*60*60*1000)`. -/
def maxYearsFor (data : List NAVData) : ℚ :=
  (((latestEntry data).date.toTime - (oldestEntry data).date.toTime : ℤ) : ℚ) / msPerYear

/-- The target timestamp for period `P`: `endDate` with `P` years
subtracted via `setFullYear`. -/
def targetTimeFor (data : List NAVData) (P : ℤ) : ℤ :=
  (latestEntry data).date.subYearsTime P

/-- The index found by the binary search for period `P`. -/
def matchedIndex (data : List NAVData) (P : ℤ) : ℤ :=
  closestIndex (sortByDate data) (targetTimeFor data P)

/-- `actualYears` for period `P`: elapsed 365.25-day years between the
binary-search-matched sample and the most recent sample. -/
def matchedElapsedYears (data : List NAVData) (P : ℤ) : ℚ :=
  (((latestEntry data).date.toTime -
      ((sortByDate data).getD (matchedIndex data P).toNat dummyNAV).date.toTime : ℤ) : ℚ) /
    msPerYear

/-- One period entry of `getCAGR` from src/app/page.tsx lines 291-343:
proceed only when `oldestDate <= targetDate`, binary-search the date
closest to the target, and populate only when
`actualYears >= years * 0.99`. -/
noncomputable def periodCagrPage (sorted : List NAVData) (currentNAV : ℚ)
    (endD : DateRec) (oldestTime : ℤ) (years : ℤ) : Option ℝ :=
  let targetTime := endD.subYearsTime years
  if oldestTime ≤ targetTime then
    let ci := closestIndex sorted targetTime
    if ci = -1 then none
    else
      let s := sorted.getD ci.toNat dummyNAV
      let actualYears : ℚ := ((endD.toTime - s.date.toTime : ℤ) : ℚ) / msPerYear
      if (years : ℚ) * (99 / 100) ≤ actualYears then
        some (calculateCAGR (s.nav : ℝ) (currentNAV : ℝ) (actualYears : ℝ))
      else none
  else none

/-- One period entry of `getCAGR` from src/unnamed/part_000 lines
268-317: same binary search but no oldest-date guard, and populate
when `actualYears >= 0.9 * years`. -/
noncomputable def periodCagrAlt (sorted : List NAVData) (currentNAV : ℚ)
    (endD : DateRec) (years : ℤ) : Option ℝ :=
  let targetTime := endD.subYearsTime years
  let ci := closestIndex sorted targetTime
  if ci = -1 then none
  else
    let s := sorted.getD ci.toNat dummyNAV
    let actualYears : ℚ := ((endD.toTime - s.date.toTime : ℤ) : ℚ) / msPerYear
    if (9 / 10 : ℚ) * (years : ℚ) ≤ actualYears then
      some (calculateCAGR (s.nav : ℝ) (currentNAV : ℝ) (actualYears : ℝ))
    else none

/-- The `Max` entry: populated with `calculateCAGR(oldestNAV, currentNAV, maxYears)`
when `maxYears >= 1` (identical in both getCAGR variants). -/
noncomputable def maxEntry (data : List NAVData) : Option ℝ :=
  if (1 : ℚ) ≤ maxYearsFor data then
    some (calculateCAGR ((oldestEntry data).nav : ℝ) ((latestEntry data).nav : ℝ)
      (maxYearsFor data : ℝ))
  else none

/-- `getCAGR(data)` from src/app/page.tsx lines 251-346: empty table
on empty input, else the `Max` entry plus one `periodCagrPage` entry
per fixed period 1/3/5/7/10/15. -/
noncomputable def getCAGR (data : List NAVData) : CagrTable :=
  if data.length = 0 then emptyTable
  else
    let sorted := sortByDate data
    let currentNAV := (latestEntry data).nav
    let endD := (latestEntry data).date
    let oldestTime := (oldestEntry data).date.toTime
    ⟨periodCagrPage sorted currentNAV endD oldestTime 1,
     periodCagrPage sorted currentNAV endD oldestTime 3,
     periodCagrPage sorted currentNAV endD oldestTime 5,
     periodCagrPage sorted currentNAV endD oldestTime 7,
     periodCagrPage sorted currentNAV endD oldestTime 10,
     periodCagrPage sorted currentNAV endD oldestTime 15,
     maxEntry data⟩

/-- `getCAGR(data)` from src/unnamed/part_000 lines 227-320: as
`getCAGR` but with no oldest-date guard and a `0.9 * years`
completeness threshold. -/
noncomputable def getCAGRAlt (data : List NAVData) : CagrTable :=
  if data.length = 0 then emptyTable
  else
    let sorted := sortByDate data
    let currentNAV := (latestEntry data).nav
    let endD := (latestEntry data).date
    ⟨periodCagrAlt sorted currentNAV endD 1,
     periodCagrAlt sorted currentNAV endD 3,
     periodCagrAlt sorted currentNAV endD 5,
     periodCagrAlt sorted currentNAV endD 7,
     periodCagrAlt sorted currentNAV endD 10,
     periodCagrAlt sorted currentNAV endD 15,
     maxEntry data⟩

/-- `calculateLumpsumValue(principal, cagr, years)` from src/app/page.tsx
lines 348-355 (identical in src/app/cagr-calculator/page.tsx lines 46-53):
`principal * Math.pow(1 + cagr/100, years)`. -/
noncomputable def calculateLumpsumValue (principal cagr years : ℝ) : ℝ :=
  let r := cagr / 100
  principal * (1 + r) ^ years

/-- `calculateSIPValue(monthlyAmount, cagr, years)` from src/app/page.tsx
lines 357-369 (identical in src/app/cagr-calculator/page.tsx lines 55-67):
`monthlyAmount * ((Math.pow(1 + monthlyRate, months) - 1) / monthlyRate) * (1 + monthlyRate)`
with `monthlyRate = cagr/(12*100)` and `months = years*12`.  There is no
special case for `monthlyRate = 0`; there the JavaScript code computes
`0/0` (`NaN`), which this exact model renders as `0` under the
division-by-zero-is-zero convention. -/
noncomputable def calculateSIPValue (monthlyAmount cagr years : ℝ) : ℝ :=
  let monthlyRate := cagr / (12 * 100)
  let months := years * 12
  monthlyAmount * (((1 + monthlyRate) ^ months - 1) / monthlyRate) * (1 + monthlyRate)

/-- `calculateTaxAmount(totalGains)` from src/app/page.tsx lines 371-375
(identical in src/app/cagr-calculator/page.tsx lines 69-73): `0` up to the
₹150,000 exemption, else 12.5% of the excess. -/
def calculateTaxAmount (totalGains : ℚ) : ℚ :=
  let exemptionLimit : ℚ := 150000
  if totalGains ≤ exemptionLimit then 0
  else (totalGains - exemptionLimit) * (0.125 : ℚ)

/-- `interface YearlyProjection` from src/app/cagr-calculator/page.tsx
lines 26-35. -/
structure YearlyProjection where
  year : ℕ
  startingCorpus : ℚ
  annualWithdrawal : ℚ
  growthAmount : ℚ
  annualTax : ℚ
  endingCorpus : ℚ
  monthlyIncomeBeforeTax : ℚ
  monthlyIncomeAfterTax : ℚ
deriving DecidableEq

/-- Default record for in-bounds list indexing. -/
def dummyProj : YearlyProjection := ⟨0, 0, 0, 0, 0, 0, 0, 0⟩

/-- One iteration of the `for (let year = 1; year <= years; year++)` loop
of `calculateCorpusProjection` (src/app/cagr-calculator/page.tsx lines
85-113): withdrawal, remaining corpus, growth, tax above the ₹150,000
exemption at 12.5%, and the monthly income figures. -/
def corpusYearRecord (annualWithdrawalPercent growthRate currentCorpus : ℚ)
    (year : ℕ) : YearlyProjection :=
  let annualWithdrawal := currentCorpus * annualWithdrawalPercent / 100
  let monthlyIncomeBeforeTax := annualWithdrawal / 12
  let remainingCorpus := currentCorpus - annualWithdrawal
  let growthAmount := remainingCorpus * growthRate / 100
  let yearEndCorpus := remainingCorpus + growthAmount
  let taxableAmount := max 0 (annualWithdrawal - 150000)
  let annualTax := taxableAmount * (0.125 : ℚ)
  let monthlyIncomeAfterTax := (annualWithdrawal - annualTax) / 12
  ⟨year, currentCorpus, annualWithdrawal, growthAmount, annualTax,
    yearEndCorpus, monthlyIncomeBeforeTax, monthlyIncomeAfterTax⟩

/-- The loop of `calculateCorpusProjection`: emit a record per year and
carry `currentCorpus = yearEndCorpus` into the next iteration. -/
def corpusLoop (annualWithdrawalPercent growthRate : ℚ) :
    ℚ → ℕ → ℕ → List YearlyProjection
  | _, _, 0 => []
  | currentCorpus, year, n + 1 =>
    let r := corpusYearRecord annualWithdrawalPercent growthRate currentCorpus year
    r :: corpusLoop annualWithdrawalPercent growthRate r.endingCorpus (year + 1) n

/-- `calculateCorpusProjection(initialCorpus, annualWithdrawalPercent, growthRate, years)`
from src/app/cagr-calculator/page.tsx lines 75-117. -/
def calculateCorpusProjection (initialCorpus annualWithdrawalPercent growthRate : ℚ)
    (years : ℕ) : List YearlyProjection :=
  corpusLoop annualWithdrawalPercent growthRate initialCorpus 1 years

/-! ## Local cache (src/unnamed/part_003)

The IndexedDB store is modelled as a map from keys to entries, one
`getFromCache`/`setInCache`/`clearCache` call as one serialized
read-then-write step.  JavaScript specifics are made explicit:
`truthy` is the `!data` test (`0`, `""`, `false`, `null` are falsy),
`stringify` is `JSON.stringify` (`compressData`, returning `""` on
failure), and `parse` is `JSON.parse` (`decompressData`, `none` on
failure). -/

/-- `interface CacheData<T> { data: T; timestamp: number }` with the
serialized (`CacheData<string>`) payload actually stored. -/
structure CacheEntry where
  data : String
  timestamp : ℤ
deriving DecidableEq

/-- The contents of the single IndexedDB object store. -/
def Store : Type := String → Option CacheEntry

/-- A store with no entries. -/
def emptyStore : Store := fun _ => none

/-- `CACHE_EXPIRY`: default `86400000` ms (24 h). -/
def CACHE_EXPIRY : ℤ := 86400000

/-- `clearCache(key)` (src/unnamed/part_003 lines 152-168):
`store.delete(key)`. -/
def clearCache (store : Store) (key : String) : Store :=
  fun k => if k = key then none else store k

/-- `setInCache(data, key)` (src/unnamed/part_003 lines 110-149): return
without writing when `!data` (falsy payload) or when `compressData`
returns `""`; otherwise `store.put({data: compressed, timestamp: Date.now()}, key)`. -/
def setInCache {α : Type} (truthy : α → Bool) (stringify : α → String)
    (store : Store) (now : ℤ) (data : α) (key : String) : Store :=
  if truthy data = false then store
  else
    let compressed := stringify data
    if compressed = "" then store
    else fun k => if k = key then some ⟨compressed, now⟩ else store k

/-- `getFromCache(key)` (src/unnamed/part_003 lines 66-107): absent when
the entry is missing, when `!cachedData.data || !cachedData.timestamp`,
or when `now - timestamp > CACHE_EXPIRY` (in which case the stale entry
is also deleted via `clearCache`); otherwise the deserialized payload.
Returns the result together with the store after the call. -/
def getFromCache {α : Type} (parse : String → Option α)
    (store : Store) (now : ℤ) (key : String) : Option α × Store :=
  match store key with
  | none => (none, store)
  | some cachedData =>
    if cachedData.data = "" ∨ cachedData.timestamp = 0 then (none, store)
    else if CACHE_EXPIRY < now - cachedData.timestamp then
      (none, clearCache store key)
    else (parse cachedData.data, store)

/-- JavaScript truthiness of a number: `!n` holds exactly for `0`. -/
def natTruthy (n : ℕ) : Bool := decide (n ≠ 0)

/-- A concrete serialization for ℕ payloads (`JSON.stringify` of a number). -/
def natStringify (n : ℕ) : String := toString n

/-- The matching deserialization (`JSON.parse` of a number). -/
def natParse (s : String) : Option ℕ := s.toNat?

/-! ## Theorems -/

/-- C3: for every startValue, endValue and years, `calculateCAGR` returns `0`
(without raising an error) whenever `startValue ≤ 0` or `endValue ≤ 0` or
`years ≤ 0`, and otherwise returns `((endValue/startValue)^(1/years) - 1) * 100`. -/
theorem calculateCAGR_spec (startNAV endNAV years : ℝ) :
    (startNAV ≤ 0 ∨ endNAV ≤ 0 ∨ years ≤ 0 → calculateCAGR startNAV endNAV years = 0) ∧
    (0 < startNAV → 0 < endNAV → 0 < years →
      calculateCAGR startNAV endNAV years =
        ((endNAV / startNAV) ^ ((1 : ℝ) / years) - 1) * 100) := by
  constructor
  · intro h
    simp only [calculateCAGR, if_pos h]
  · intro h1 h2 h3
    have hn : ¬(startNAV ≤ 0 ∨ endNAV ≤ 0 ∨ years ≤ 0) := by
      push_neg
      exact ⟨h1, h2, h3⟩
    simp only [calculateCAGR, if_neg hn]

/-- Witness for C3: a non-positive input yields 0, and positive inputs
yield the closed-form expression. -/
theorem calculateCAGR_spec_witness :
    ((-1 : ℝ) ≤ 0 ∨ (5 : ℝ) ≤ 0 ∨ (1 : ℝ) ≤ 0) ∧ calculateCAGR (-1) 5 1 = 0 ∧
    (0 < (100 : ℝ) ∧ 0 < (200 : ℝ) ∧ 0 < (1 : ℝ)) ∧
    calculateCAGR 100 200 1 = (((200 : ℝ) / 100) ^ ((1 : ℝ) / 1) - 1) * 100 :=
  ⟨Or.inl (by norm_num), (calculateCAGR_spec (-1) 5 1).1 (Or.inl (by norm_num)),
   ⟨by norm_num, by norm_num, by norm_num⟩,
   (calculateCAGR_spec 100 200 1).2 (by norm_num) (by norm_num) (by norm_num)⟩

/-- C9: a zero growth rate leaves the principal unchanged,
`calculateLumpsumValue p 0 n = p`, as an instance of the formula
`principal * (1 + annualRatePercent/100)^years`. -/
theorem calculateLumpsumValue_spec :
    (∀ p y : ℝ, calculateLumpsumValue p 0 y = p) ∧
    (∀ p c y : ℝ, calculateLumpsumValue p c y = p * (1 + c / 100) ^ y) := by
  constructor
  · intro p y
    simp only [calculateLumpsumValue]
    norm_num [Real.one_rpow]
  · intro p c y
    rfl

/-- Witness for C9 at a concrete principal and duration. -/
theorem calculateLumpsumValue_spec_witness :
    calculateLumpsumValue 500 0 7 = 500 ∧
    calculateLumpsumValue 500 12 7 = 500 * (1 + 12 / 100) ^ (7 : ℝ) :=
  ⟨calculateLumpsumValue_spec.1 500 7, calculateLumpsumValue_spec.2 500 12 7⟩

/-- C4 (failing input): at an annual rate of exactly 0 the SIP formula is
*not* the zero-rate limit `monthlyAmount * years * 12`: the code evaluates
`((1+0)^months - 1) / 0`, a division by zero (`NaN` in JavaScript, `0` in
this exact model), so `calculateSIPValue 1000 0 1` is `0` where the claimed
limit is `1000 * 1 * 12 = 12000`. -/
theorem calculateSIPValue_zero_rate :
    calculateSIPValue 1000 0 1 = 0 ∧ (1000 : ℝ) * 1 * 12 = 12000 := by
  constructor
  · simp only [calculateSIPValue]
    norm_num [Real.one_rpow]
  · norm_num

/-- C6: `calculateTaxAmount` equals `max 0 (totalGains - 150000) * 0.125`;
it returns 0 for any gains at most 150000 (negative included),
`calculateTaxAmount 150000 = 0`, and `calculateTaxAmount 250000 = 12500`. -/
theorem calculateTaxAmount_spec (totalGains : ℚ) :
    calculateTaxAmount totalGains = max 0 (totalGains - 150000) * (0.125 : ℚ) ∧
    (totalGains ≤ 150000 → calculateTaxAmount totalGains = 0) ∧
    calculateTaxAmount 150000 = 0 ∧ calculateTaxAmount 250000 = 12500 := by
  refine ⟨?_, ?_, ?_, ?_⟩
  · simp only [calculateTaxAmount]
    by_cases h : totalGains ≤ 150000
    · rw [if_pos h, max_eq_left (by linarith), zero_mul]
    · rw [if_neg h, max_eq_right (by linarith [not_le.mp h])]
  · intro h
    simp only [calculateTaxAmount, if_pos h]
  · norm_num [calculateTaxAmount]
  · norm_num [calculateTaxAmount]

/-- Witness for C6: gains below the exemption are untaxed. -/
theorem calculateTaxAmount_spec_witness :
    ((100000 : ℚ) ≤ 150000) ∧ calculateTaxAmount 100000 = 0 :=
  ⟨by norm_num, (calculateTaxAmount_spec 100000).2.1 (by norm_num)⟩

/-- Reading a key whose entry is present unfolds to the freshness checks
of `getFromCache`. -/
theorem getFromCache_eq_of_entry {α : Type} (parse : String → Option α)
    (store : Store) (now : ℤ) (key : String) (e : CacheEntry)
    (h : store key = some e) :
    getFromCache parse store now key =
      if e.data = "" ∨ e.timestamp = 0 then (none, store)
      else if CACHE_EXPIRY < now - e.timestamp then (none, clearCache store key)
      else (parse e.data, store) := by
  unfold getFromCache
  rw [h]

/-- The store state after a successful `setInCache`. -/
theorem setInCache_eq {α : Type} (truthy : α → Bool) (stringify : α → String)
    (store : Store) (now : ℤ) (v : α) (key : String)
    (htr : truthy v = true) (hser : ¬ stringify v = "") :
    setInCache truthy stringify store now v key =
      fun k => if k = key then some ⟨stringify v, now⟩ else store k := by
  unfold setInCache
  rw [htr]
  simp [hser]

/-- C7 counterexample: the payload `0` is serializable but falsy, so
`setInCache`'s `!data` guard drops it and the immediate `getFromCache`
returns `none` instead of the value. -/
theorem cache_roundtrip_zero_dropped :
    (getFromCache natParse
        (setInCache natTruthy natStringify emptyStore 1000 0 "fundList")
        1000 "fundList").1 = none := by
  rfl

/-- C7 (amended): for a truthy value whose serialization is nonempty and
round-trips, written at a nonzero timestamp, `setInCache` followed by an
immediate `getFromCache` returns the value; and a read whose age exceeds
`CACHE_EXPIRY` returns `none` and deletes the stale entry. -/
theorem cache_roundtrip_expiry {α : Type} (truthy : α → Bool)
    (stringify : α → String) (parse : String → Option α)
    (store : Store) (now t : ℤ) (v : α) (key : String)
    (htr : truthy v = true) (hser : ¬ stringify v = "")
    (hrt : parse (stringify v) = some v) (hnow : ¬ now = 0) :
    (getFromCache parse (setInCache truthy stringify store now v key) now key).1
      = some v ∧
    (CACHE_EXPIRY < t - now →
      (getFromCache parse (setInCache truthy stringify store now v key) t key).1
        = none ∧
      (getFromCache parse (setInCache truthy stringify store now v key) t key).2 key
        = none) := by
  have hset := setInCache_eq truthy stringify store now v key htr hser
  have happ : (setInCache truthy stringify store now v key) key
      = some ⟨stringify v, now⟩ := by
    rw [hset]
    simp
  constructor
  · rw [getFromCache_eq_of_entry parse _ now key _ happ]
    have hcond : ¬((⟨stringify v, now⟩ : CacheEntry).data = ""
        ∨ (⟨stringify v, now⟩ : CacheEntry).timestamp = 0) := by
      push_neg
      exact ⟨hser, hnow⟩
    rw [if_neg hcond]
    have hfresh : ¬ CACHE_EXPIRY < now - now := by
      simp [CACHE_EXPIRY]
    rw [if_neg hfresh]
    exact congrArg Prod.fst (congrArg (fun o => (o, _)) hrt) |>.trans rfl
  · intro hexp
    rw [getFromCache_eq_of_entry parse _ t key _ happ]
    have hcond : ¬((⟨stringify v, now⟩ : CacheEntry).data = ""
        ∨ (⟨stringify v, now⟩ : CacheEntry).timestamp = 0) := by
      push_neg
      exact ⟨hser, hnow⟩
    rw [if_neg hcond, if_pos hexp]
    refine ⟨rfl, ?_⟩
    simp [clearCache]

/-- Witness for C7's amended theorem at a concrete ℕ payload. -/
theorem cache_roundtrip_expiry_witness :
    (natTruthy 42 = true) ∧ (¬ natStringify 42 = "") ∧
    (natParse (natStringify 42) = some 42) ∧ (¬ (1000 : ℤ) = 0) ∧
    (getFromCache natParse
        (setInCache natTruthy natStringify emptyStore 1000 42 "fundList")
        1000 "fundList").1 = some 42 ∧
    (CACHE_EXPIRY < 90000000 - 1000 →
      (getFromCache natParse
          (setInCache natTruthy natStringify emptyStore 1000 42 "fundList")
          90000000 "fundList").1 = none ∧
      (getFromCache natParse
          (setInCache natTruthy natStringify emptyStore 1000 42 "fundList")
          90000000 "fundList").2 "fundList" = none) :=
  ⟨by decide, by with_unfolding_all decide, by with_unfolding_all decide, by decide,
   (cache_roundtrip_expiry natTruthy natStringify natParse emptyStore 1000 90000000
      42 "fundList" (by decide) (by with_unfolding_all decide)
      (by with_unfolding_all decide) (by decide)).1,
   (cache_roundtrip_expiry natTruthy natStringify natParse emptyStore 1000 90000000
      42 "fundList" (by decide) (by with_unfolding_all decide)
      (by with_unfolding_all decide) (by decide)).2⟩

/-- The projection always emits exactly one record per simulated year. -/
theorem corpusLoop_length (w g : ℚ) :
    ∀ (n : ℕ) (cur : ℚ) (year : ℕ), (corpusLoop w g cur year n).length = n := by
  intro n
  induction n with
  | zero => intro cur year; rfl
  | succ m ih =>
    intro cur year
    simp only [corpusLoop, List.length_cons]
    rw [ih]

/-- Every emitted record is `corpusYearRecord` applied to some starting
corpus, and the record at position 0 starts from the loop's input corpus. -/
theorem corpusLoop_getD (w g : ℚ) :
    ∀ (n : ℕ) (cur : ℚ) (year i : ℕ), i < n →
      ∃ s : ℚ, (corpusLoop w g cur year n).getD i dummyProj
          = corpusYearRecord w g s (year + i) ∧ (i = 0 → s = cur) := by
  intro n
  induction n with
  | zero => intro cur year i hi; omega
  | succ m ih =>
    intro cur year i hi
    match i with
    | 0 =>
      refine ⟨cur, ?_, fun _ => rfl⟩
      simp [corpusLoop]
    | j + 1 =>
      have hj : j < m := by omega
      obtain ⟨s, hs, _⟩ := ih (corpusYearRecord w g cur year).endingCorpus (year + 1) j hj
      refine ⟨s, ?_, by omega⟩
      simp only [corpusLoop, List.getD_cons_succ]
      rw [hs]
      congr 1
      omega

/-- Consecutive records chain: each record's starting corpus is the
previous record's ending corpus. -/
theorem corpusLoop_chain (w g : ℚ) :
    ∀ (n : ℕ) (cur : ℚ) (year i : ℕ), i + 1 < n →
      ((corpusLoop w g cur year n).getD (i + 1) dummyProj).startingCorpus
        = ((corpusLoop w g cur year n).getD i dummyProj).endingCorpus := by
  intro n
  induction n with
  | zero => intro cur year i hi; omega
  | succ m ih =>
    intro cur year i hi
    match i with
    | 0 =>
      simp only [corpusLoop, List.getD_cons_succ, List.getD_cons_zero]
      have h0 : 0 < m := by omega
      obtain ⟨s, hs, hs0⟩ :=
        corpusLoop_getD w g m (corpusYearRecord w g cur year).endingCorpus (year + 1) 0 h0
      rw [hs, hs0 rfl]
      rfl
    | j + 1 =>
      have hj : j + 1 < m := by omega
      simp only [corpusLoop, List.getD_cons_succ]
      exact ih (corpusYearRecord w g cur year).endingCorpus (year + 1) j hj

/-- C5: every yearly record of `calculateCorpusProjection` satisfies the
withdrawal, growth, tax and monthly-income equations; records chain
(`startingCorpus` of a record is the previous `endingCorpus`, the first
being the initial corpus); and with a zero withdrawal rate each year's
ending corpus is the starting corpus grown by `1 + growthRate/100`. -/
theorem corpus_projection_spec (initialCorpus w g : ℚ) (years i : ℕ)
    (h : i < (calculateCorpusProjection initialCorpus w g years).length) :
    ((calculateCorpusProjection initialCorpus w g years).getD i dummyProj).annualWithdrawal
        = ((calculateCorpusProjection initialCorpus w g years).getD i dummyProj).startingCorpus
            * w / 100 ∧
    ((calculateCorpusProjection initialCorpus w g years).getD i dummyProj).endingCorpus
        = (((calculateCorpusProjection initialCorpus w g years).getD i dummyProj).startingCorpus
            - ((calculateCorpusProjection initialCorpus w g years).getD i dummyProj).annualWithdrawal)
            * (1 + g / 100) ∧
    ((calculateCorpusProjection initialCorpus w g years).getD i dummyProj).annualTax
        = max 0 (((calculateCorpusProjection initialCorpus w g years).getD i dummyProj).annualWithdrawal
            - 150000) * (0.125 : ℚ) ∧
    ((calculateCorpusProjection initialCorpus w g years).getD i dummyProj).monthlyIncomeBeforeTax
        = ((calculateCorpusProjection initialCorpus w g years).getD i dummyProj).annualWithdrawal / 12 ∧
    ((calculateCorpusProjection initialCorpus w g years).getD i dummyProj).monthlyIncomeAfterTax
        = (((calculateCorpusProjection initialCorpus w g years).getD i dummyProj).annualWithdrawal
            - ((calculateCorpusProjection initialCorpus w g years).getD i dummyProj).annualTax) / 12 ∧
    (i = 0 →
      ((calculateCorpusProjection initialCorpus w g years).getD i dummyProj).startingCorpus
        = initialCorpus) ∧
    (i + 1 < (calculateCorpusProjection initialCorpus w g years).length →
      ((calculateCorpusProjection initialCorpus w g years).getD (i + 1) dummyProj).startingCorpus
        = ((calculateCorpusProjection initialCorpus w g years).getD i dummyProj).endingCorpus) ∧
    (w = 0 →
      ((calculateCorpusProjection initialCorpus w g years).getD i dummyProj).endingCorpus
        = ((calculateCorpusProjection initialCorpus w g years).getD i dummyProj).startingCorpus
            * (1 + g / 100)) := by
  have hlen : (calculateCorpusProjection initialCorpus w g years).length = years :=
    corpusLoop_length w g years initialCorpus 1
  have hi : i < years := hlen ▸ h
  obtain ⟨s, hs, hs0⟩ := corpusLoop_getD w g years initialCorpus 1 i hi
  unfold calculateCorpusProjection
  rw [hs]
  refine ⟨rfl, ?_, rfl, rfl, rfl, fun h0 => hs0 h0, ?_, ?_⟩
  · show (s - s * w / 100) + (s - s * w / 100) * g / 100
        = (s - s * w / 100) * (1 + g / 100)
    ring
  · intro hnext
    have hnext2 : i + 1 < years := by
      rw [corpusLoop_length w g years initialCorpus 1] at hnext
      exact hnext
    have hchain := corpusLoop_chain w g years initialCorpus 1 i hnext2
    rw [hs] at hchain
    exact hchain
  · intro hw
    subst hw
    show (s - s * 0 / 100) + (s - s * 0 / 100) * g / 100 = s * (1 + g / 100)
    ring

/-- Witness for C5 at a concrete projection (corpus 1000000, 4% withdrawal,
8% growth, 2 years, record 0). -/
theorem corpus_projection_spec_witness :
    (0 < (calculateCorpusProjection 1000000 4 8 2).length) ∧
    (((calculateCorpusProjection 1000000 4 8 2).getD 0 dummyProj).annualWithdrawal
        = ((calculateCorpusProjection 1000000 4 8 2).getD 0 dummyProj).startingCorpus * 4 / 100 ∧
      ((calculateCorpusProjection 1000000 4 8 2).getD 0 dummyProj).endingCorpus
        = (((calculateCorpusProjection 1000000 4 8 2).getD 0 dummyProj).startingCorpus
            - ((calculateCorpusProjection 1000000 4 8 2).getD 0 dummyProj).annualWithdrawal)
            * (1 + 8 / 100) ∧
      ((calculateCorpusProjection 1000000 4 8 2).getD 0 dummyProj).annualTax
        = max 0 (((calculateCorpusProjection 1000000 4 8 2).getD 0 dummyProj).annualWithdrawal
            - 150000) * (0.125 : ℚ) ∧
      ((calculateCorpusProjection 1000000 4 8 2).getD 0 dummyProj).monthlyIncomeBeforeTax
        = ((calculateCorpusProjection 1000000 4 8 2).getD 0 dummyProj).annualWithdrawal / 12 ∧
      ((calculateCorpusProjection 1000000 4 8 2).getD 0 dummyProj).monthlyIncomeAfterTax
        = (((calculateCorpusProjection 1000000 4 8 2).getD 0 dummyProj).annualWithdrawal
            - ((calculateCorpusProjection 1000000 4 8 2).getD 0 dummyProj).annualTax) / 12 ∧
      ((0 : ℕ) = 0 →
        ((calculateCorpusProjection 1000000 4 8 2).getD 0 dummyProj).startingCorpus = 1000000) ∧
      (0 + 1 < (calculateCorpusProjection 1000000 4 8 2).length →
        ((calculateCorpusProjection 1000000 4 8 2).getD (0 + 1) dummyProj).startingCorpus
          = ((calculateCorpusProjection 1000000 4 8 2).getD 0 dummyProj).endingCorpus) ∧
      ((4 : ℚ) = 0 →
        ((calculateCorpusProjection 1000000 4 8 2).getD 0 dummyProj).endingCorpus
          = ((calculateCorpusProjection 1000000 4 8 2).getD 0 dummyProj).startingCorpus
              * (1 + 8 / 100))) :=
  ⟨by with_unfolding_all decide,
   corpus_projection_spec 1000000 4 8 2 0 (by with_unfolding_all decide)⟩

/-- A nonnegative starting corpus keeps the year-end corpus nonnegative
(the withdrawal rate being between 0 and 100 and the growth rate
nonnegative). -/
theorem corpusYearRecord_ending_nonneg (w g s : ℚ) (y : ℕ)
    (_hw0 : 0 ≤ w) (hw1 : w ≤ 100) (hg : 0 ≤ g) (hs : 0 ≤ s) :
    0 ≤ (corpusYearRecord w g s y).endingCorpus := by
  show 0 ≤ (s - s * w / 100) + (s - s * w / 100) * g / 100
  have hrem : 0 ≤ s - s * w / 100 := by
    have : s * w / 100 ≤ s := by nlinarith
    linarith
  have hgrow : 0 ≤ (s - s * w / 100) * g / 100 := by positivity
  linarith

/-- Every field of a yearly record is nonnegative when the starting
corpus is nonnegative, `0 ≤ withdrawal% ≤ 100` and the growth rate is
nonnegative. -/
theorem corpusYearRecord_nonneg (w g s : ℚ) (y : ℕ)
    (hw0 : 0 ≤ w) (hw1 : w ≤ 100) (hg : 0 ≤ g) (hs : 0 ≤ s) :
    0 ≤ (corpusYearRecord w g s y).startingCorpus ∧
    0 ≤ (corpusYearRecord w g s y).annualWithdrawal ∧
    0 ≤ (corpusYearRecord w g s y).growthAmount ∧
    0 ≤ (corpusYearRecord w g s y).annualTax ∧
    0 ≤ (corpusYearRecord w g s y).endingCorpus ∧
    0 ≤ (corpusYearRecord w g s y).monthlyIncomeBeforeTax ∧
    0 ≤ (corpusYearRecord w g s y).monthlyIncomeAfterTax := by
  have haw : 0 ≤ s * w / 100 := by positivity
  have hrem : 0 ≤ s - s * w / 100 := by
    have : s * w / 100 ≤ s := by nlinarith
    linarith
  refine ⟨hs, haw, ?_, ?_, corpusYearRecord_ending_nonneg w g s y hw0 hw1 hg hs, ?_, ?_⟩
  · show 0 ≤ (s - s * w / 100) * g / 100
    positivity
  · show 0 ≤ max 0 (s * w / 100 - 150000) * (0.125 : ℚ)
    have : (0 : ℚ) ≤ max 0 (s * w / 100 - 150000) := le_max_left 0 _
    positivity
  · show 0 ≤ (s * w / 100) / 12
    positivity
  · show 0 ≤ (s * w / 100 - max 0 (s * w / 100 - 150000) * (0.125 : ℚ)) / 12
    rcases max_cases (0 : ℚ) (s * w / 100 - 150000) with ⟨hm, _⟩ | ⟨hm, _⟩
    · rw [hm]
      linarith
    · rw [hm]
      norm_num
      linarith


/-- Positions within the loop output stay `corpusYearRecord`s of a
nonnegative starting corpus whenever the loop starts nonnegative. -/
theorem corpusLoop_getD_nonneg (w g : ℚ)
    (hw0 : 0 ≤ w) (hw1 : w ≤ 100) (hg : 0 ≤ g) :
    ∀ (n : ℕ) (cur : ℚ), 0 ≤ cur → ∀ (year i : ℕ), i < n →
      ∃ s : ℚ, 0 ≤ s ∧
        (corpusLoop w g cur year n).getD i dummyProj = corpusYearRecord w g s (year + i) := by
  intro n
  induction n with
  | zero => intro cur hcur year i hi; omega
  | succ m ih =>
    intro cur hcur year i hi
    match i with
    | 0 =>
      refine ⟨cur, hcur, ?_⟩
      simp [corpusLoop]
    | j + 1 =>
      have hj : j < m := by omega
      have hend : 0 ≤ (corpusYearRecord w g cur year).endingCorpus :=
        corpusYearRecord_ending_nonneg w g cur year hw0 hw1 hg hcur
      obtain ⟨s, hsn, hs⟩ := ih (corpusYearRecord w g cur year).endingCorpus hend (year + 1) j hj
      refine ⟨s, hsn, ?_⟩
      simp only [corpusLoop, List.getD_cons_succ]
      rw [hs]
      congr 1
      omega

/-- C10: for a nonnegative initial corpus, a withdrawal percentage between
0 and 100 and a nonnegative growth rate, every field of every record
emitted by `calculateCorpusProjection` is nonnegative: the simulated
corpus and the post-tax monthly income never go negative. -/
theorem corpus_projection_nonneg (initialCorpus w g : ℚ) (years i : ℕ)
    (hc : 0 ≤ initialCorpus) (hw0 : 0 ≤ w) (hw1 : w ≤ 100) (hg : 0 ≤ g)
    (h : i < (calculateCorpusProjection initialCorpus w g years).length) :
    0 ≤ ((calculateCorpusProjection initialCorpus w g years).getD i dummyProj).startingCorpus ∧
    0 ≤ ((calculateCorpusProjection initialCorpus w g years).getD i dummyProj).annualWithdrawal ∧
    0 ≤ ((calculateCorpusProjection initialCorpus w g years).getD i dummyProj).growthAmount ∧
    0 ≤ ((calculateCorpusProjection initialCorpus w g years).getD i dummyProj).annualTax ∧
    0 ≤ ((calculateCorpusProjection initialCorpus w g years).getD i dummyProj).endingCorpus ∧
    0 ≤ ((calculateCorpusProjection initialCorpus w g years).getD i dummyProj).monthlyIncomeBeforeTax ∧
    0 ≤ ((calculateCorpusProjection initialCorpus w g years).getD i dummyProj).monthlyIncomeAfterTax := by
  have hlen : (calculateCorpusProjection initialCorpus w g years).length = years :=
    corpusLoop_length w g years initialCorpus 1
  have hi : i < years := hlen ▸ h
  obtain ⟨s, hsn, hs⟩ := corpusLoop_getD_nonneg w g hw0 hw1 hg years initialCorpus hc 1 i hi
  rw [show calculateCorpusProjection initialCorpus w g years
        = corpusLoop w g initialCorpus 1 years from rfl, hs]
  exact corpusYearRecord_nonneg w g s (1 + i) hw0 hw1 hg hsn

/-- Witness for C10 at a concrete projection (second year of a 3-year
5%-withdrawal 10%-growth run). -/
theorem corpus_projection_nonneg_witness :
    ((0 : ℚ) ≤ 1000000 ∧ (0 : ℚ) ≤ 5 ∧ (5 : ℚ) ≤ 100 ∧ (0 : ℚ) ≤ 10 ∧
      1 < (calculateCorpusProjection 1000000 5 10 3).length) ∧
    (0 ≤ ((calculateCorpusProjection 1000000 5 10 3).getD 1 dummyProj).startingCorpus ∧
      0 ≤ ((calculateCorpusProjection 1000000 5 10 3).getD 1 dummyProj).annualWithdrawal ∧
      0 ≤ ((calculateCorpusProjection 1000000 5 10 3).getD 1 dummyProj).growthAmount ∧
      0 ≤ ((calculateCorpusProjection 1000000 5 10 3).getD 1 dummyProj).annualTax ∧
      0 ≤ ((calculateCorpusProjection 1000000 5 10 3).getD 1 dummyProj).endingCorpus ∧
      0 ≤ ((calculateCorpusProjection 1000000 5 10 3).getD 1 dummyProj).monthlyIncomeBeforeTax ∧
      0 ≤ ((calculateCorpusProjection 1000000 5 10 3).getD 1 dummyProj).monthlyIncomeAfterTax) :=
  ⟨⟨by norm_num, by norm_num, by norm_num, by norm_num, by with_unfolding_all decide⟩,
   corpus_projection_nonneg 1000000 5 10 3 1 (by norm_num) (by norm_num) (by norm_num)
     (by norm_num) (by with_unfolding_all decide)⟩

/-- Sorting a one-sample series is the identity. -/
theorem sortByDate_singleton (x : NAVData) : sortByDate [x] = [x] := rfl

/-- On a one-sample series the binary search lands on index 0 whatever
the target date. -/
theorem closestIndex_singleton (x : NAVData) (t : ℤ) : closestIndex [x] t = 0 := by
  show closestLoop [x] t (1 + 1) 0 ((1 : ℤ) - 1) (-1) none = 0
  simp only [closestLoop]
  norm_num

/-- The most recent sample of a one-sample series is that sample. -/
theorem latestEntry_singleton (x : NAVData) : latestEntry [x] = x := rfl

/-- The oldest sample of a one-sample series is that sample. -/
theorem oldestEntry_singleton (x : NAVData) : oldestEntry [x] = x := rfl

/-- With a single sample the page variant's period entry is always empty:
the matched sample is the sample itself, so `actualYears = 0` falls below
the `0.99 * years` threshold for every positive period. -/
theorem periodCagrPage_singleton (x : NAVData) (cn : ℚ) (ot : ℤ) (k : ℤ)
    (hk : 0 < k) : periodCagrPage [x] cn x.date ot k = none := by
  have hkq : (0 : ℚ) < (k : ℚ) := by exact_mod_cast hk
  simp only [periodCagrPage, closestIndex_singleton]
  norm_num [List.getD]
  intro _ hle
  exfalso
  nlinarith [hkq]

/-- Same for the part_000 variant with its `0.9 * years` threshold. -/
theorem periodCagrAlt_singleton (x : NAVData) (cn : ℚ) (k : ℤ)
    (hk : 0 < k) : periodCagrAlt [x] cn x.date k = none := by
  have hkq : (0 : ℚ) < (k : ℚ) := by exact_mod_cast hk
  simp only [periodCagrAlt, closestIndex_singleton]
  norm_num [List.getD]
  intro hle
  exfalso
  nlinarith [hkq]

/-- With a single sample `maxYears = 0 < 1`, so the `Max` entry is empty. -/
theorem maxEntry_singleton (x : NAVData) : maxEntry [x] = none := by
  have h : ¬ ((1 : ℚ) ≤ maxYearsFor [x]) := by
    unfold maxYearsFor
    rw [latestEntry_singleton, oldestEntry_singleton, sub_self]
    push_cast
    rw [zero_div]
    norm_num
  simp only [maxEntry, if_neg h]

/-- C8: a NAV series with fewer than 2 samples yields an empty CAGR
table from both `getCAGR` variants: no period key, `Max` included,
is populated. -/
theorem getCAGR_short_series (data : List NAVData) (h : data.length < 2) :
    getCAGR data = emptyTable ∧ getCAGRAlt data = emptyTable := by
  match data with
  | [] => exact ⟨rfl, rfl⟩
  | [x] =>
    constructor
    · show getCAGR [x] = emptyTable
      simp only [getCAGR]
      rw [if_neg (show ¬ ([x] : List NAVData).length = 0 by simp)]
      rw [sortByDate_singleton, latestEntry_singleton]
      rw [periodCagrPage_singleton x _ _ 1 (by norm_num),
        periodCagrPage_singleton x _ _ 3 (by norm_num),
        periodCagrPage_singleton x _ _ 5 (by norm_num),
        periodCagrPage_singleton x _ _ 7 (by norm_num),
        periodCagrPage_singleton x _ _ 10 (by norm_num),
        periodCagrPage_singleton x _ _ 15 (by norm_num),
        maxEntry_singleton x]
      rfl
    · show getCAGRAlt [x] = emptyTable
      simp only [getCAGRAlt]
      rw [if_neg (show ¬ ([x] : List NAVData).length = 0 by simp)]
      rw [sortByDate_singleton, latestEntry_singleton]
      rw [periodCagrAlt_singleton x _ 1 (by norm_num),
        periodCagrAlt_singleton x _ 3 (by norm_num),
        periodCagrAlt_singleton x _ 5 (by norm_num),
        periodCagrAlt_singleton x _ 7 (by norm_num),
        periodCagrAlt_singleton x _ 10 (by norm_num),
        periodCagrAlt_singleton x _ 15 (by norm_num),
        maxEntry_singleton x]
      rfl
  | x :: y :: rest =>
    exfalso
    simp only [List.length_cons] at h
    omega

/-- Witness for C8 on a concrete one-sample series. -/
theorem getCAGR_short_series_witness :
    ([(⟨⟨1, 1, 2020⟩, 10⟩ : NAVData)].length < 2) ∧
    getCAGR [(⟨⟨1, 1, 2020⟩, 10⟩ : NAVData)] = emptyTable ∧
    getCAGRAlt [(⟨⟨1, 1, 2020⟩, 10⟩ : NAVData)] = emptyTable :=
  ⟨by decide,
   (getCAGR_short_series [⟨⟨1, 1, 2020⟩, 10⟩] (by decide)).1,
   (getCAGR_short_series [⟨⟨1, 1, 2020⟩, 10⟩] (by decide)).2⟩

/-- The empty table has no entry for any period. -/
theorem emptyTable_period (P : ℤ) : emptyTable.period P = none := by
  unfold emptyTable CagrTable.period
  split_ifs <;> rfl

/-- A period outside `{1,3,5,7,10,15}` has no key in any table. -/
theorem period_none_of_odd (t : CagrTable) (P : ℤ)
    (h : ¬(P = 1 ∨ P = 3 ∨ P = 5 ∨ P = 7 ∨ P = 10 ∨ P = 15)) :
    t.period P = none := by
  push_neg at h
  obtain ⟨h1, h3, h5, h7, h10, h15⟩ := h
  simp [CagrTable.period, h1, h3, h5, h7, h10, h15]

/-- For the fixed periods, the page table's entry is the corresponding
`periodCagrPage` application. -/
theorem getCAGR_period_eq (data : List NAVData) (hd : ¬ data.length = 0) (P : ℤ)
    (hP : P = 1 ∨ P = 3 ∨ P = 5 ∨ P = 7 ∨ P = 10 ∨ P = 15) :
    (getCAGR data).period P =
      periodCagrPage (sortByDate data) (latestEntry data).nav (latestEntry data).date
        (oldestEntry data).date.toTime P := by
  rcases hP with rfl | rfl | rfl | rfl | rfl | rfl <;>
    simp [getCAGR, CagrTable.period, hd]

/-- For the fixed periods, the part_000 table's entry is the corresponding
`periodCagrAlt` application. -/
theorem getCAGRAlt_period_eq (data : List NAVData) (hd : ¬ data.length = 0) (P : ℤ)
    (hP : P = 1 ∨ P = 3 ∨ P = 5 ∨ P = 7 ∨ P = 10 ∨ P = 15) :
    (getCAGRAlt data).period P =
      periodCagrAlt (sortByDate data) (latestEntry data).nav (latestEntry data).date P := by
  rcases hP with rfl | rfl | rfl | rfl | rfl | rfl <;>
    simp [getCAGRAlt, CagrTable.period, hd]

/-- A populated part_000 entry means the elapsed time to the matched
sample passed the `0.9 * years` check. -/
theorem periodCagrAlt_isSome_elapsed (sorted : List NAVData) (cn : ℚ)
    (endD : DateRec) (P : ℤ)
    (h : (periodCagrAlt sorted cn endD P).isSome = true) :
    (9 / 10 : ℚ) * (P : ℚ) ≤
      ((endD.toTime -
          (sorted.getD (closestIndex sorted (endD.subYearsTime P)).toNat dummyNAV).date.toTime
            : ℤ) : ℚ) / msPerYear := by
  simp only [periodCagrAlt] at h
  split_ifs at h with h1 h2
  all_goals first | exact h2 | simp at h

/-- A populated page entry means the oldest sample did not post-date the
target and the elapsed time passed the `years * 0.99` check. -/
theorem periodCagrPage_isSome_elapsed (sorted : List NAVData) (cn : ℚ)
    (endD : DateRec) (ot : ℤ) (P : ℤ)
    (h : (periodCagrPage sorted cn endD ot P).isSome = true) :
    ot ≤ endD.subYearsTime P ∧
    (P : ℚ) * (99 / 100) ≤
      ((endD.toTime -
          (sorted.getD (closestIndex sorted (endD.subYearsTime P)).toNat dummyNAV).date.toTime
            : ℤ) : ℚ) / msPerYear := by
  simp only [periodCagrPage] at h
  split_ifs at h with h1 h2 h3
  all_goals first | exact ⟨h1, h3⟩ | simp at h

/-- C1: in the CAGR table, for every NAV series and every fixed lookback
period `P` (1, 3, 5, 7, 10 or 15 years), a period key carries a value only
if the actual elapsed time in 365.25-day years between the
binary-search-matched sample and the most recent sample is at least 90%
of `P`.  This holds for the `getCAGR` of src/unnamed/part_000 (whose
threshold is exactly `0.9 * years`) and for the `getCAGR` of
src/app/page.tsx (whose stricter `0.99 * years` threshold implies it). -/
theorem cagr_table_ninety_percent (data : List NAVData) (P : ℤ) :
    (((getCAGRAlt data).period P).isSome = true →
      (9 / 10 : ℚ) * (P : ℚ) ≤ matchedElapsedYears data P) ∧
    (((getCAGR data).period P).isSome = true →
      (9 / 10 : ℚ) * (P : ℚ) ≤ matchedElapsedYears data P) := by
  by_cases hd : data.length = 0
  · have he : data = [] := List.length_eq_zero.mp hd
    subst he
    constructor <;> intro h <;>
      simp [show getCAGRAlt [] = emptyTable from rfl,
        show getCAGR [] = emptyTable from rfl, emptyTable_period] at h
  · by_cases hP : P = 1 ∨ P = 3 ∨ P = 5 ∨ P = 7 ∨ P = 10 ∨ P = 15
    · constructor
      · intro h
        rw [getCAGRAlt_period_eq data hd P hP] at h
        exact periodCagrAlt_isSome_elapsed _ _ _ _ h
      · intro h
        rw [getCAGR_period_eq data hd P hP] at h
        have h2 : (P : ℚ) * (99 / 100) ≤ matchedElapsedYears data P :=
          (periodCagrPage_isSome_elapsed _ _ _ _ _ h).2
        have hp0 : (0 : ℚ) ≤ (P : ℚ) := by
          rcases hP with rfl | rfl | rfl | rfl | rfl | rfl <;> norm_num
        nlinarith [h2, hp0]
    · constructor <;> intro h <;>
        rw [period_none_of_odd _ P hP] at h <;> simp at h

/-- Witness for C1: a populated 1Y key on a 3-year series, for both
variants of `getCAGR`. -/
theorem cagr_table_ninety_percent_witness :
    (((getCAGRAlt [⟨⟨1, 1, 2020⟩, 100⟩, ⟨⟨1, 1, 2022⟩, 110⟩, ⟨⟨1, 1, 2023⟩, 120⟩]).period 1).isSome
        = true) ∧
    (9 / 10 : ℚ) * ((1 : ℤ) : ℚ) ≤
      matchedElapsedYears [⟨⟨1, 1, 2020⟩, 100⟩, ⟨⟨1, 1, 2022⟩, 110⟩, ⟨⟨1, 1, 2023⟩, 120⟩] 1 :=
  ⟨by with_unfolding_all decide,
   (cagr_table_ninety_percent [⟨⟨1, 1, 2020⟩, 100⟩, ⟨⟨1, 1, 2022⟩, 110⟩, ⟨⟨1, 1, 2023⟩, 120⟩] 1).1
     (by with_unfolding_all decide)⟩

/-- C2 counterexample: on the `getCAGR` of src/unnamed/part_000, a series
whose oldest sample (01-07-2022) is strictly later than the 1-year target
date (01-06-2022) still gets its 1Y key populated, because the matched
sample is ~0.917 years before the end, above the 0.9 threshold. -/
theorem cagrAlt_populates_despite_late_oldest :
    (((getCAGRAlt [⟨⟨1, 7, 2022⟩, 100⟩, ⟨⟨1, 6, 2023⟩, 110⟩]).period 1).isSome = true) ∧
    targetTimeFor [⟨⟨1, 7, 2022⟩, 100⟩, ⟨⟨1, 6, 2023⟩, 110⟩] 1 <
      (oldestEntry [⟨⟨1, 7, 2022⟩, 100⟩, ⟨⟨1, 6, 2023⟩, 110⟩]).date.toTime :=
  ⟨by with_unfolding_all decide, by decide⟩

/-- C2 (amended): for the `getCAGR` of src/app/page.tsx, the table omits
the key for `P` whenever the oldest sample's parsed date is strictly
later than the calendar target date, and whenever the elapsed-fraction
check (`actualYears >= years * 0.99` there) fails; the src/unnamed/part_000
variant omits the oldest-date guard and can populate a key in that case. -/
theorem getCAGR_period_requires_history (data : List NAVData) (P : ℤ)
    (h : ((getCAGR data).period P).isSome = true) :
    (oldestEntry data).date.toTime ≤ targetTimeFor data P ∧
    (P : ℚ) * (99 / 100) ≤ matchedElapsedYears data P := by
  by_cases hd : data.length = 0
  · have he : data = [] := List.length_eq_zero.mp hd
    subst he
    rw [show getCAGR [] = emptyTable from rfl, emptyTable_period] at h
    simp at h
  · by_cases hP : P = 1 ∨ P = 3 ∨ P = 5 ∨ P = 7 ∨ P = 10 ∨ P = 15
    · rw [getCAGR_period_eq data hd P hP] at h
      exact periodCagrPage_isSome_elapsed _ _ _ _ _ h
    · rw [period_none_of_odd _ P hP] at h
      simp at h

/-- Witness for C2's amended theorem: a populated 1Y key on a 3-year
series under the page variant. -/
theorem getCAGR_period_requires_history_witness :
    (((getCAGR [⟨⟨1, 1, 2020⟩, 100⟩, ⟨⟨1, 1, 2022⟩, 110⟩, ⟨⟨1, 1, 2023⟩, 120⟩]).period 1).isSome
        = true) ∧
    ((oldestEntry [⟨⟨1, 1, 2020⟩, 100⟩, ⟨⟨1, 1, 2022⟩, 110⟩, ⟨⟨1, 1, 2023⟩, 120⟩]).date.toTime ≤
        targetTimeFor [⟨⟨1, 1, 2020⟩, 100⟩, ⟨⟨1, 1, 2022⟩, 110⟩, ⟨⟨1, 1, 2023⟩, 120⟩] 1 ∧
      ((1 : ℤ) : ℚ) * (99 / 100) ≤
        matchedElapsedYears [⟨⟨1, 1, 2020⟩, 100⟩, ⟨⟨1, 1, 2022⟩, 110⟩, ⟨⟨1, 1, 2023⟩, 120⟩] 1) :=
  ⟨by with_unfolding_all decide,
   getCAGR_period_requires_history [⟨⟨1, 1, 2020⟩, 100⟩, ⟨⟨1, 1, 2022⟩, 110⟩, ⟨⟨1, 1, 2023⟩, 120⟩]
     1 (by with_unfolding_all decide)⟩

end FinanceTracker
